import Mathlib

/-!
Shallow embedding of `src/main.py` of the market-integrated-backend repository.

Modelling conventions:
* Python `datetime.date` values are represented by their proleptic-Gregorian
  ordinal (days since 0001-01-01 = 1, exactly `date.toordinal()`), as an `Int`.
  `timedelta(days = k)` subtraction is ordinal subtraction, and `date`
  comparison is ordinal comparison, both faithful to Python.
* Prices (floats in the source) are represented as rationals `ℚ`; the
  arithmetic the endpoints perform on them (`(curr - past) / past`) is modelled
  exactly.
* The external HTTP providers are parameters: the price-series provider is a
  function from (symbol, window start ordinal, window end ordinal) to the
  fetched series, and the news / web-search providers are given as the response
  value (status code, body, parsed payload).  Outbound query-string
  construction has no observable effect on the modelled behaviour and is not
  embedded.
* `raise HTTPException(status_code, detail)` is modelled as
  `Except.error ⟨status_code, detail⟩`.
-/

/-- Model of FastAPI's `HTTPException`: a status code and a detail message. -/
structure HTTPError where
  status_code : ℕ
  detail : String
deriving DecidableEq, Repr

/-! ## Python string primitives

Python `str` values are Lean `String`s; the string operations the source uses
(`split`, `in`, `isdigit`, `int(...)`) are modelled over the character list of
the string. -/

/-- Python's `s.split(sep)` for a one-character separator, over the character
list: `"".split(c) == [""]`, and every occurrence of the separator starts a
new (possibly empty) part. -/
def splitOnCharL (sep : Char) : List Char → List (List Char)
  | [] => [[]]
  | c :: cs =>
    match splitOnCharL sep cs with
    | [] => [[]]
    | h :: t => if c = sep then [] :: h :: t else (c :: h) :: t

/-- `sub` is a contiguous sublist of the second list: Python's `sub in s`. -/
def listContainsSub (sub : List Char) : List Char → Bool
  | [] => sub.isEmpty
  | c :: t => sub.isPrefixOf (c :: t) || listContainsSub sub t

/-- Python's substring test `sub in s`. -/
def strContains (s sub : String) : Bool :=
  listContainsSub sub.toList s.toList

/-- Python's `int(s)` on an all-digit string. -/
def digitsToNat (l : List Char) : ℕ :=
  l.foldl (fun n c => n * 10 + (c.toNat - 48)) 0

/-! ## Date handling: `datetime.strptime(date, "%Y-%m-%d").date()` -/

/-- Gregorian leap-year test, as in Python's `calendar`/`datetime`. -/
def isLeapYear (y : ℕ) : Bool :=
  y % 4 = 0 && (y % 100 ≠ 0 || y % 400 = 0)

/-- Days in month `m` of year `y` (Python `calendar.monthrange` semantics). -/
def daysInMonth (y m : ℕ) : ℕ :=
  if m = 2 then (if isLeapYear y then 29 else 28)
  else if m = 4 ∨ m = 6 ∨ m = 9 ∨ m = 11 then 30
  else 31

/-- Days in year `y` strictly before month `m`. -/
def daysBeforeMonth (y m : ℕ) : ℕ :=
  (List.range (m - 1)).foldl (fun acc i => acc + daysInMonth y (i + 1)) 0

/-- Python's `date(y, m, d).toordinal()`: day count with 0001-01-01 ↦ 1. -/
def toOrdinal (y m d : ℕ) : ℤ :=
  ((y - 1) * 365 + (y - 1) / 4 - (y - 1) / 100 + (y - 1) / 400
    + daysBeforeMonth y m + d : ℕ)

/-- Model of `datetime.strptime(s, "%Y-%m-%d").date()`: `%Y` matches 1–4
digits, `%m` and `%d` match 1–2 digits, and the resulting numbers must form a
valid calendar date (year 1–9999).  Returns the date's ordinal, or `none` when
Python would raise `ValueError`. -/
def parseDate (s : String) : Option ℤ :=
  match splitOnCharL '-' s.toList with
  | [ys, ms, ds] =>
    if 1 ≤ ys.length ∧ ys.length ≤ 4 ∧ ys.all Char.isDigit
        ∧ 1 ≤ ms.length ∧ ms.length ≤ 2 ∧ ms.all Char.isDigit
        ∧ 1 ≤ ds.length ∧ ds.length ≤ 2 ∧ ds.all Char.isDigit then
      let y := digitsToNat ys
      let m := digitsToNat ms
      let d := digitsToNat ds
      if 1 ≤ y ∧ y ≤ 9999 ∧ 1 ≤ m ∧ m ≤ 12 ∧ 1 ≤ d ∧ d ≤ daysInMonth y m then
        some (toOrdinal y m d)
      else none
    else none
  | _ => none

/-! ## `/stocks` endpoint -/

/-- One row of the downloaded daily price series: the index date (as an
ordinal) and the Open/High/Low/Close/Volume columns. -/
structure Entry where
  date : ℤ
  «open» : ℚ
  high : ℚ
  low : ℚ
  close : ℚ
  volume : ℚ
deriving DecidableEq, Repr

/-- Model of the `StockResponse` pydantic model.  The `date` field (an ISO
string in the source, produced by `isoformat()`, which is injective) is
represented by the date's ordinal. -/
structure StockResponse where
  symbol : String
  date : ℤ
  close : ℚ
  «open» : Option ℚ := none
  high : Option ℚ := none
  low : Option ℚ := none
  volume : Option ℚ := none
  var_day : Option ℚ := none
  var_week : Option ℚ := none
  var_month : Option ℚ := none
deriving DecidableEq, Repr

/-- Insertion step for `sortSeries`. -/
def insertEntry (e : Entry) : List Entry → List Entry
  | [] => [e]
  | x :: xs => if e.date ≤ x.date then e :: x :: xs else x :: insertEntry e xs

/-- Model of `data.sort_index()`: sort the series ascending by date. -/
def sortSeries : List Entry → List Entry
  | [] => []
  | e :: es => insertEntry e (sortSeries es)

/-- The backward scan `for idx in reversed(data.index): if idx.date() <= d:
... break` — the first entry of the reversed series whose date is ≤ `d`. -/
def findLatestOnOrBefore (series : List Entry) (d : ℤ) : Option Entry :=
  series.reverse.find? (fun e => decide (e.date ≤ d))

/-- The closure `get_close_at(days_delta)` of `get_stock`: close price of the
latest entry on or before `target_date - days_delta`, over the already sorted
series `data`. -/
def get_close_at (data : List Entry) (target_date : ℤ) (days_delta : ℤ) : Option ℚ :=
  (findLatestOnOrBefore data (target_date - days_delta)).map (·.close)

/-- The local helper `var_rel(curr, past)` of `get_stock`:
`None` when `curr is None or past is None or past == 0`, otherwise
`(curr - past) / past`. -/
def var_rel : Option ℚ → Option ℚ → Option ℚ
  | none, _ => none
  | _, none => none
  | some curr, some past => if past = 0 then none else some ((curr - past) / past)

/-- Model of the `/stocks` handler `get_stock`.  `provider sym start e` is the
series returned by `yf.download(sym, start, e)` for the requested window. -/
def get_stock (symbol : String) (date : String)
    (provider : String → ℤ → ℤ → List Entry) : Except HTTPError StockResponse :=
  match parseDate date with
  | none => .error ⟨400, "Formato de fecha inválido. Usa YYYY-MM-DD."⟩
  | some target_date =>
    let start := target_date - 40
    let stop := target_date + 1
    let raw := provider symbol start stop
    if raw.isEmpty then
      .error ⟨404, "No se encontraron datos para ese símbolo/fecha."⟩
    else
      let data := sortSeries raw
      match findLatestOnOrBefore data target_date with
      | none => .error ⟨404, "No hay datos previos a esa fecha."⟩
      | some target =>
        .ok { symbol := symbol
              date := target_date
              close := target.close
              «open» := some target.«open»
              high := some target.high
              low := some target.low
              volume := some target.volume
              var_day := var_rel (some target.close) (get_close_at data target_date 1)
              var_week := var_rel (some target.close) (get_close_at data target_date 7)
              var_month := var_rel (some target.close) (get_close_at data target_date 30) }

/-! ## `/news` endpoint -/

/-- A raw GDELT article, i.e. the JSON dict a ranges over: only the keys read
by the handler, plus the `snippet`/`body`-like keys GDELT may carry but the
handler never reads.  `none` models an absent key (`.get` default). -/
structure RawArticle where
  title : Option String := none
  url : Option String := none
  sourceCountry : Option String := none
  language : Option String := none
  seendate : Option String := none
  snippet : Option String := none
deriving DecidableEq, Repr

/-- Model of the `NewsItem` pydantic model. -/
structure NewsItem where
  title : String
  url : String
  source : Option String := none
  language : Option String := none
  datetime : Option String := none
  snippet : Option String := none
deriving DecidableEq, Repr

/-- Model of the `NewsResponse` pydantic model. -/
structure NewsResponse where
  keyword : String
  date : String
  articles : List NewsItem
deriving DecidableEq, Repr

/-- The GDELT response as seen by the handler: HTTP status and the parsed
`articles` list (`data.get("articles", [])`). -/
structure GdeltResponse where
  status_code : ℕ
  articles : List RawArticle
deriving Repr

/-- The per-article reshaping done in the loop body of `get_news`. -/
def mkNewsItem (a : RawArticle) : NewsItem :=
  { title := a.title.getD ""
    url := a.url.getD ""
    source := a.sourceCountry
    language := a.language
    datetime := a.seendate
    snippet := a.title }

/-- Model of the `/news` handler `get_news`.  `resp` is the provider's
response to the single outbound request (`maxrecords` only shapes that
request, which is abstracted by `resp`). -/
def get_news (keyword : String) (date : String) (maxrecords : ℕ)
    (resp : GdeltResponse) : Except HTTPError NewsResponse :=
  match parseDate date with
  | none => .error ⟨400, "Formato de fecha inválido. Usa YYYY-MM-DD."⟩
  | some _ =>
    if resp.status_code ≠ 200 then
      .error ⟨502, "Error consultando GDELT."⟩
    else
      .ok { keyword := keyword
            date := date
            articles := resp.articles.map mkNewsItem }

/-! ## `/tweets` endpoint -/

/-- The module-level credential literal of the source. -/
def SERPAPI_API_KEY : String :=
  "510c17bb85d95cd2111329ad2aa6b14e2004fca83a26c2eca6db17c685178568"

/-- Python's `datetime.utcfromtimestamp(ms / 1000.0)` applied to an integer
count of milliseconds, yielding milliseconds since the Unix epoch.  For every
count small enough to be representable as a `datetime` (year ≤ 9999, i.e. at
most 253402300799999 ms) the float detour is exact at millisecond
granularity (the total microseconds stay below 2^53 and the ≤ 0.5 ms rounding
of `utcfromtimestamp` recovers the integer); beyond that bound Python raises,
which the `try`/`except` of the source turns into `None`. -/
def tweet_id_to_datetime (tweet_id : ℕ) : Option ℕ :=
  let twitter_epoch_ms : ℕ := 1288834974657
  let timestamp_ms := (tweet_id >>> 22) + twitter_epoch_ms
  if timestamp_ms ≤ 253402300799999 then some timestamp_ms else none

/-- `.date()` of a UTC timestamp given in milliseconds since the epoch, as an
ordinal: 1970-01-01 has ordinal 719163. -/
def msToDateOrdinal (ms : ℕ) : ℤ :=
  719163 + (ms / 86400000 : ℕ)

/-- One organic result of the web-search provider: the four keys the handler
reads.  `none` models an absent key; the handler coalesces absent/falsy values
to `""` via `r.get(k, "") or ""`. -/
structure OrganicResult where
  link : Option String := none
  source : Option String := none
  snippet : Option String := none
  title : Option String := none
deriving DecidableEq, Repr

/-- Model of the `TweetItem` pydantic model.  `created_at` (an ISO string or
`""` in the source) is represented as the derived timestamp in milliseconds
since the epoch, `none` for `""` (`isoformat` is injective on timestamps). -/
structure TweetItem where
  user : String
  text : String
  created_at : Option ℕ
  url : Option String := none
deriving DecidableEq, Repr

/-- Model of the `TweetsResponse` pydantic model. -/
structure TweetsResponse where
  keyword : String
  date : String
  tweets : List TweetItem
deriving DecidableEq, Repr

/-- The SerpAPI response as seen by the handler: HTTP status, raw body text,
and the parsed `organic_results` list. -/
structure SerpResponse where
  status_code : ℕ
  text : String := ""
  organic_results : List OrganicResult := []
deriving Repr

/-- The platform filter of the `/tweets` loop: keep a result iff
`"x.com" in link or "twitter.com" in link or "X" in source`
(the source skips on the conjunction of the three negations). -/
def platformOk (r : OrganicResult) : Bool :=
  strContains (r.link.getD "") "x.com"
    || strContains (r.link.getD "") "twitter.com"
    || strContains (r.source.getD "") "X"

/-- Identifier extraction of the `/tweets` loop: split the link on `"/"`; if a
`"status"` part exists, take the part after the first one, cut it at the first
`"?"`, and convert it to an integer when it `isdigit()` (nonempty, all
digits). -/
def extractTweetId (link : String) : Option ℕ :=
  let parts := splitOnCharL '/' link.toList
  if parts.contains "status".toList then
    let idx := parts.indexOf "status".toList
    if idx + 1 < parts.length then
      let tweet_id_str := (splitOnCharL '?' (parts.getD (idx + 1) [])).headD []
      if tweet_id_str ≠ [] ∧ tweet_id_str.all Char.isDigit then
        some (digitsToNat tweet_id_str)
      else none
    else none
  else none

/-- The `TweetItem` built at the end of the `for r in organic` loop body:
`user = title or source or "desconocido"`, `text = snippet or title`
(Python `or` takes the right operand on an empty string). -/
def mkTweetItem (r : OrganicResult) (tweet_dt : Option ℕ) : TweetItem :=
  let link := r.link.getD ""
  let source := r.source.getD ""
  let snippet := r.snippet.getD ""
  let title := r.title.getD ""
  { user := if title ≠ "" then title else if source ≠ "" then source else "desconocido"
    text := if snippet ≠ "" then snippet else title
    created_at := tweet_dt
    url := some link }

/-- The body of the `for r in organic` loop of `get_tweets`: `none` when the
result is skipped (platform filter or date filter), otherwise the emitted
`TweetItem`. -/
def processResult (date : String) (r : OrganicResult) : Option TweetItem :=
  if !platformOk r then none
  else
    let tweet_id := extractTweetId (r.link.getD "")
    let tweet_dt := tweet_id.bind tweet_id_to_datetime
    let tweet_date_ok : Bool :=
      match tweet_dt with
      | none => true
      | some ms =>
        match parseDate date with
        | some target_date => decide (msToDateOrdinal ms = target_date)
        | none => true
    if tweet_dt.isSome && !tweet_date_ok then none
    else some (mkTweetItem r tweet_dt)

/-- Model of the `/tweets` handler `get_tweets`.  `resp` is the provider's
response to the single outbound request (`max_results` only shapes that
request, which is abstracted by `resp`). -/
def get_tweets (keyword : String) (date : String) (max_results : ℕ)
    (resp : SerpResponse) : Except HTTPError TweetsResponse :=
  if SERPAPI_API_KEY = "" then
    .error ⟨500, "Falta configurar SERPAPI_API_KEY en el servidor."⟩
  else if resp.status_code ≠ 200 then
    .error ⟨502, "Error SerpAPI " ++ toString resp.status_code ++ ": "
        ++ (if resp.text ≠ "" then resp.text.take 200 else "Sin respuesta")⟩
  else
    .ok { keyword := keyword
          date := date
          tweets := resp.organic_results.filterMap (processResult date) }

/-- The derived timestamp of an organic result, in ms since the epoch. -/
def derivedTs (r : OrganicResult) : Option ℕ :=
  (extractTweetId (r.link.getD "")).bind tweet_id_to_datetime

/-! ## Concrete fixtures

2024-01-15 has ordinal 738900; 2024-01-12 is the prior Friday, ordinal
738897. -/

/-- A trading-day entry on 2024-01-12 (ordinal 738897). -/
def exEntry : Entry := ⟨738897, 12, 14, 11, 13, 100⟩

/-- A trading-day entry on 2024-01-11 (ordinal 738896). -/
def exEntryEarly : Entry := ⟨738896, 9, 11, 8, 10, 90⟩

/-- A trading-day entry on 2024-01-16 (ordinal 738901). -/
def exEntryLate : Entry := ⟨738901, 12, 14, 11, 13, 100⟩

/-- A price provider whose series holds a single entry, on 2024-01-12. -/
def exProvider1 : String → ℤ → ℤ → List Entry := fun _ _ _ => [exEntry]

/-- A price provider with entries on 2024-01-11 and 2024-01-12. -/
def exProvider2 : String → ℤ → ℤ → List Entry := fun _ _ _ => [exEntryEarly, exEntry]

/-- A price provider returning an empty series. -/
def exProviderEmpty : String → ℤ → ℤ → List Entry := fun _ _ _ => []

/-- A price provider whose only entry is after 2024-01-15. -/
def exProviderLate : String → ℤ → ℤ → List Entry := fun _ _ _ => [exEntryLate]

/-- What `/stocks` answers for symbol `"EC"`, date `"2024-01-15"` against
`exProvider1` (and `exProvider2`): prices of the 2024-01-12 entry, `date`
field 738900 (= 2024-01-15), `var_day = 0`, week/month lookbacks out of
window. -/
def exResult : StockResponse :=
  { symbol := "EC", date := 738900, close := 13
    «open» := some 12, high := some 14, low := some 11, volume := some 100
    var_day := some 0, var_week := none, var_month := none }

/-- An organic result whose link has a `status` segment with the snowflake id
1234567890123456789 (created 2020-03-02 UTC). -/
def exOrganicStatus : OrganicResult :=
  { link := some "https://x.com/u/status/1234567890123456789?s=20"
    source := some "X (formerly Twitter)", snippet := some "a snippet", title := some "a title" }

/-- An organic result on the platform domain but with no `status` segment. -/
def exOrganicNoStatus : OrganicResult :=
  { link := some "https://x.com/u/about"
    source := some "X (formerly Twitter)", snippet := some "other snippet", title := some "other title" }

/-- A 200 web-search response with the two organic fixtures. -/
def exSerpOk : SerpResponse :=
  { status_code := 200, text := "", organic_results := [exOrganicNoStatus, exOrganicStatus] }

/-- A raw article whose `snippet` key differs from its `title` key. -/
def exRawArticle : RawArticle :=
  { title := some "Headline", url := some "http://e.x/a", sourceCountry := some "CO"
    language := some "Spanish", seendate := some "20240115T120000Z"
    snippet := some "a body text different from the title" }

/-- A raw article with no `title` key. -/
def exRawArticleNoTitle : RawArticle := { snippet := some "body only" }

/-- A news provider response with status 503. -/
def exGdelt503 : GdeltResponse := ⟨503, []⟩

/-- A 200 news provider response with an empty article list. -/
def exGdeltEmpty : GdeltResponse := ⟨200, []⟩

/-- A 200 news provider response with the two raw-article fixtures. -/
def exGdeltOk : GdeltResponse := ⟨200, [exRawArticle, exRawArticleNoTitle]⟩

/-! ## Branch characterizations of the three handlers -/

theorem get_stock_badDate {symbol date : String}
    {provider : String → ℤ → ℤ → List Entry} (hd : parseDate date = none) :
    get_stock symbol date provider =
      .error ⟨400, "Formato de fecha inválido. Usa YYYY-MM-DD."⟩ := by
  rw [get_stock, hd]

theorem get_stock_emptySeries {symbol date : String}
    {provider : String → ℤ → ℤ → List Entry} {target_date : ℤ}
    (hd : parseDate date = some target_date)
    (h : provider symbol (target_date - 40) (target_date + 1) = []) :
    get_stock symbol date provider =
      .error ⟨404, "No se encontraron datos para ese símbolo/fecha."⟩ := by
  rw [get_stock, hd]
  simp only [h, List.isEmpty_nil, if_true]

theorem get_stock_noPrior {symbol date : String}
    {provider : String → ℤ → ℤ → List Entry} {target_date : ℤ}
    (hd : parseDate date = some target_date)
    (hne : provider symbol (target_date - 40) (target_date + 1) ≠ [])
    (hn : findLatestOnOrBefore
        (sortSeries (provider symbol (target_date - 40) (target_date + 1)))
        target_date = none) :
    get_stock symbol date provider =
      .error ⟨404, "No hay datos previos a esa fecha."⟩ := by
  rw [get_stock, hd]
  simp only [List.isEmpty_eq_true, hne, if_false, hn]

theorem get_stock_ok_eq {symbol date : String}
    {provider : String → ℤ → ℤ → List Entry} {target_date : ℤ} {target : Entry}
    (hd : parseDate date = some target_date)
    (ht : findLatestOnOrBefore
        (sortSeries (provider symbol (target_date - 40) (target_date + 1)))
        target_date = some target) :
    get_stock symbol date provider =
      .ok { symbol := symbol
            date := target_date
            close := target.close
            «open» := some target.«open»
            high := some target.high
            low := some target.low
            volume := some target.volume
            var_day := var_rel (some target.close)
              (get_close_at (sortSeries (provider symbol (target_date - 40) (target_date + 1))) target_date 1)
            var_week := var_rel (some target.close)
              (get_close_at (sortSeries (provider symbol (target_date - 40) (target_date + 1))) target_date 7)
            var_month := var_rel (some target.close)
              (get_close_at (sortSeries (provider symbol (target_date - 40) (target_date + 1))) target_date 30) } := by
  have hne : provider symbol (target_date - 40) (target_date + 1) ≠ [] := by
    intro h
    rw [h] at ht
    simp [sortSeries, findLatestOnOrBefore] at ht
  rw [get_stock, hd]
  simp only [List.isEmpty_eq_true, hne, if_false, ht]

theorem processResult_platformFail {date : String} {r : OrganicResult}
    (hp : platformOk r = false) : processResult date r = none := by
  simp [processResult, hp]

theorem processResult_keep_of_no_dt {date : String} {r : OrganicResult}
    (hp : platformOk r = true) (hdt : derivedTs r = none) :
    processResult date r = some (mkTweetItem r none) := by
  rw [derivedTs] at hdt
  simp [processResult, hp, hdt]

theorem processResult_keep_of_badDate {date : String} {r : OrganicResult}
    (hp : platformOk r = true) (hpd : parseDate date = none) :
    processResult date r = some (mkTweetItem r (derivedTs r)) := by
  rw [derivedTs]
  cases hdt : (extractTweetId (r.link.getD "")).bind tweet_id_to_datetime with
  | none => simp [processResult, hp, hdt]
  | some ms => simp [processResult, hp, hdt, hpd]

theorem processResult_keep_of_match {date : String} {r : OrganicResult}
    {ms : ℕ} {target_date : ℤ}
    (hp : platformOk r = true) (hdt : derivedTs r = some ms)
    (hpd : parseDate date = some target_date)
    (heq : msToDateOrdinal ms = target_date) :
    processResult date r = some (mkTweetItem r (some ms)) := by
  rw [derivedTs] at hdt
  simp [processResult, hp, hdt, hpd, heq]

theorem processResult_drop_of_mismatch {date : String} {r : OrganicResult}
    {ms : ℕ} {target_date : ℤ}
    (hp : platformOk r = true) (hdt : derivedTs r = some ms)
    (hpd : parseDate date = some target_date)
    (hne : msToDateOrdinal ms ≠ target_date) :
    processResult date r = none := by
  rw [derivedTs] at hdt
  simp [processResult, hp, hdt, hpd, hne]

theorem processResult_none_characterization {date : String} {r : OrganicResult}
    (hp : platformOk r = true) (hnone : processResult date r = none) :
    ∃ ms target_date, derivedTs r = some ms ∧ parseDate date = some target_date
      ∧ msToDateOrdinal ms ≠ target_date := by
  cases hdt : derivedTs r with
  | none => rw [processResult_keep_of_no_dt hp hdt] at hnone; cases hnone
  | some ms =>
    cases hpd : parseDate date with
    | none => rw [processResult_keep_of_badDate hp hpd, hdt] at hnone; cases hnone
    | some td =>
      by_cases heq : msToDateOrdinal ms = td
      · rw [processResult_keep_of_match hp hdt hpd heq] at hnone; cases hnone
      · exact ⟨ms, td, rfl, rfl, heq⟩

theorem processResult_isSome_of_platformOk_badDate {date : String}
    {r : OrganicResult} (hp : platformOk r = true)
    (hpd : parseDate date = none) :
    (processResult date r).isSome = platformOk r := by
  rw [processResult_keep_of_badDate hp hpd, hp, Option.isSome_some]

theorem get_tweets_ok {keyword date : String} {max_results : ℕ}
    {resp : SerpResponse} (h200 : resp.status_code = 200) :
    get_tweets keyword date max_results resp =
      .ok { keyword := keyword, date := date
            tweets := resp.organic_results.filterMap (processResult date) } := by
  have hk : ¬ (SERPAPI_API_KEY = "") := by decide
  simp [get_tweets, hk, h200]

theorem get_tweets_upstream {keyword date : String} {max_results : ℕ}
    {resp : SerpResponse} (hne : resp.status_code ≠ 200) :
    get_tweets keyword date max_results resp =
      .error ⟨502, "Error SerpAPI " ++ toString resp.status_code ++ ": "
        ++ (if resp.text ≠ "" then resp.text.take 200 else "Sin respuesta")⟩ := by
  have hk : ¬ (SERPAPI_API_KEY = "") := by decide
  simp [get_tweets, hk, hne]

theorem get_news_badDate {keyword date : String} {maxrecords : ℕ}
    {resp : GdeltResponse} (hd : parseDate date = none) :
    get_news keyword date maxrecords resp =
      .error ⟨400, "Formato de fecha inválido. Usa YYYY-MM-DD."⟩ := by
  rw [get_news, hd]

theorem get_news_upstream {keyword date : String} {maxrecords : ℕ}
    {resp : GdeltResponse} {target_date : ℤ}
    (hd : parseDate date = some target_date) (hne : resp.status_code ≠ 200) :
    get_news keyword date maxrecords resp =
      .error ⟨502, "Error consultando GDELT."⟩ := by
  rw [get_news, hd]
  simp [hne]

theorem get_news_ok {keyword date : String} {maxrecords : ℕ}
    {resp : GdeltResponse} {target_date : ℤ}
    (hd : parseDate date = some target_date) (h200 : resp.status_code = 200) :
    get_news keyword date maxrecords resp =
      .ok { keyword := keyword, date := date
            articles := resp.articles.map mkNewsItem } := by
  rw [get_news, hd]
  simp [h200]

/-! ## General lemmas on `List.find?` and the sorting helpers -/

/-- If the first hit of `find? p` also satisfies the stronger predicate `q`
(`q` implies `p` pointwise), it is also the first hit of `find? q`. -/
theorem find?_strengthen {α} {p q : α → Bool} {l : List α} {e : α}
    (h : l.find? p = some e) (himp : ∀ x, q x = true → p x = true)
    (he : q e = true) : l.find? q = some e := by
  induction l with
  | nil => simp at h
  | cons x xs ih =>
    by_cases hp : p x = true
    · rw [List.find?_cons_of_pos _ hp] at h
      obtain rfl : x = e := by simpa using h
      rw [List.find?_cons_of_pos _ he]
    · rw [List.find?_cons_of_neg _ hp] at h
      have hq : ¬ q x = true := fun hqx => hp (himp x hqx)
      rw [List.find?_cons_of_neg _ hq]
      exact ih h

theorem mem_insertEntry {x e : Entry} {l : List Entry} :
    x ∈ insertEntry e l ↔ x = e ∨ x ∈ l := by
  induction l with
  | nil => simp [insertEntry]
  | cons y ys ih =>
    rw [insertEntry]
    by_cases hle : e.date ≤ y.date
    · simp [hle, List.mem_cons]
    · simp only [hle, if_false, List.mem_cons, ih]
      tauto

theorem mem_sortSeries {x : Entry} {l : List Entry} :
    x ∈ sortSeries l ↔ x ∈ l := by
  induction l with
  | nil => simp [sortSeries]
  | cons y ys ih => simp [sortSeries, mem_insertEntry, ih, List.mem_cons]

/-- When `f` returns `some` exactly on the elements satisfying `p`,
`filterMap f` keeps exactly as many elements as `filter p`. -/
theorem length_filterMap_of_isSome_iff {α β} {f : α → Option β} {p : α → Bool}
    (h : ∀ x, (f x).isSome = p x) (l : List α) :
    (l.filterMap f).length = (l.filter p).length := by
  induction l with
  | nil => rfl
  | cons x xs ih =>
    rw [List.filterMap_cons, List.filter_cons]
    have hx := h x
    cases hf : f x with
    | none => rw [hf] at hx; simp only [Option.isSome_none] at hx
              rw [← hx]; simpa using ih
    | some b => rw [hf] at hx; simp only [Option.isSome_some] at hx
                rw [← hx]; simpa using ih

/-! ## Lemmas about `findLatestOnOrBefore` over the sorted series -/

theorem findLatest_spec {raw : List Entry} {d : ℤ} {e : Entry}
    (h : findLatestOnOrBefore (sortSeries raw) d = some e) :
    e ∈ raw ∧ e.date ≤ d := by
  rw [findLatestOnOrBefore] at h
  have hm := List.mem_of_find?_eq_some h
  have hp := List.find?_some h
  rw [List.mem_reverse, mem_sortSeries] at hm
  simp only [decide_eq_true_eq] at hp
  exact ⟨hm, hp⟩

theorem findLatest_isSome_of_exists {raw : List Entry} {d : ℤ}
    (h : ∃ e ∈ raw, e.date ≤ d) :
    ∃ e, findLatestOnOrBefore (sortSeries raw) d = some e := by
  cases hf : findLatestOnOrBefore (sortSeries raw) d with
  | some e => exact ⟨e, rfl⟩
  | none =>
    rw [findLatestOnOrBefore, List.find?_eq_none] at hf
    obtain ⟨e, he, hle⟩ := h
    have hmem : e ∈ (sortSeries raw).reverse := by
      rw [List.mem_reverse, mem_sortSeries]; exact he
    have := hf e hmem
    simp only [decide_eq_true_eq] at this
    exact absurd hle this

theorem findLatest_eq_none_of_all {raw : List Entry} {d : ℤ}
    (h : ∀ e ∈ raw, ¬ e.date ≤ d) :
    findLatestOnOrBefore (sortSeries raw) d = none := by
  rw [findLatestOnOrBefore, List.find?_eq_none]
  intro x hx
  rw [List.mem_reverse, mem_sortSeries] at hx
  simpa using h x hx

/-- The resolved target entry stays the first hit for any earlier reference
date that is still on or after its own date. -/
theorem findLatest_anchor {data : List Entry} {d d' : ℤ} {e : Entry}
    (h : findLatestOnOrBefore data d = some e)
    (hd' : d' ≤ d) (he : e.date ≤ d') :
    findLatestOnOrBefore data d' = some e := by
  rw [findLatestOnOrBefore] at h ⊢
  refine find?_strengthen h (fun x hx => ?_) (by simpa using he)
  simp only [decide_eq_true_eq] at hx ⊢
  exact le_trans hx hd'

/-! ## Evaluation of the fixtures -/

theorem exStock1_eval : get_stock "EC" "2024-01-15" exProvider1 = .ok exResult := by
  have hd : parseDate "2024-01-15" = some 738900 := by decide
  have ht : findLatestOnOrBefore
      (sortSeries (exProvider1 "EC" ((738900 : ℤ) - 40) ((738900 : ℤ) + 1)))
      738900 = some exEntry := by decide
  rw [get_stock_ok_eq hd ht]
  have h1 : get_close_at
      (sortSeries (exProvider1 "EC" ((738900 : ℤ) - 40) ((738900 : ℤ) + 1)))
      738900 1 = some 13 := by decide
  have h7 : get_close_at
      (sortSeries (exProvider1 "EC" ((738900 : ℤ) - 40) ((738900 : ℤ) + 1)))
      738900 7 = none := by decide
  have h30 : get_close_at
      (sortSeries (exProvider1 "EC" ((738900 : ℤ) - 40) ((738900 : ℤ) + 1)))
      738900 30 = none := by decide
  rw [h1, h7, h30]
  simp [var_rel, exEntry, exResult]

theorem exStock2_eval : get_stock "EC" "2024-01-15" exProvider2 = .ok exResult := by
  have hd : parseDate "2024-01-15" = some 738900 := by decide
  have ht : findLatestOnOrBefore
      (sortSeries (exProvider2 "EC" ((738900 : ℤ) - 40) ((738900 : ℤ) + 1)))
      738900 = some exEntry := by decide
  rw [get_stock_ok_eq hd ht]
  have h1 : get_close_at
      (sortSeries (exProvider2 "EC" ((738900 : ℤ) - 40) ((738900 : ℤ) + 1)))
      738900 1 = some 13 := by decide
  have h7 : get_close_at
      (sortSeries (exProvider2 "EC" ((738900 : ℤ) - 40) ((738900 : ℤ) + 1)))
      738900 7 = none := by decide
  have h30 : get_close_at
      (sortSeries (exProvider2 "EC" ((738900 : ℤ) - 40) ((738900 : ℤ) + 1)))
      738900 30 = none := by decide
  rw [h1, h7, h30]
  simp [var_rel, exEntry, exResult]

/-! ## The claims -/

/-- C1, counterexample: for the request `symbol = "EC"`, `date = "2024-01-15"`
against a provider whose series has its latest entry on or before the
requested date at 2024-01-12 (ordinal 738897) and no entry on 2024-01-15
(ordinal 738900), the endpoint succeeds but the returned `date` field is
738900 — the requested date — and not the resolved trading day's 738897, so
the returned `date` does not reflect the resolved trading day. -/
theorem C1_counterexample :
    exProvider1 "EC" ((738900 : ℤ) - 40) ((738900 : ℤ) + 1) = [exEntry]
    ∧ exEntry.date = 738897
    ∧ parseDate "2024-01-15" = some 738900
    ∧ findLatestOnOrBefore
        (sortSeries (exProvider1 "EC" ((738900 : ℤ) - 40) ((738900 : ℤ) + 1)))
        738900 = some exEntry
    ∧ get_stock "EC" "2024-01-15" exProvider1 = .ok exResult
    ∧ exResult.date = 738900
    ∧ ¬ exResult.date = exEntry.date :=
  ⟨rfl, rfl, by decide, by decide, exStock1_eval, rfl, by decide⟩

/-- C1 (amended): for every `/stocks` request whose requested date is not a
trading day (no series entry on that exact date) but some entry exists on an
earlier date, the endpoint succeeds; the resolved trading day (the latest
series entry on or before the requested date) supplies the price fields, but
the `date` field of the returned StockResult is the requested date, not the
resolved trading day's date. -/
theorem C1_amended_date_is_requested (symbol date : String)
    (provider : String → ℤ → ℤ → List Entry) (target_date : ℤ)
    (hd : parseDate date = some target_date)
    (hno : ∀ e ∈ provider symbol (target_date - 40) (target_date + 1),
      e.date ≠ target_date)
    (hbefore : ∃ e ∈ provider symbol (target_date - 40) (target_date + 1),
      e.date ≤ target_date) :
    ∃ (r : StockResponse) (target : Entry),
      get_stock symbol date provider = .ok r
      ∧ findLatestOnOrBefore
          (sortSeries (provider symbol (target_date - 40) (target_date + 1)))
          target_date = some target
      ∧ target.date < target_date
      ∧ r.date = target_date
      ∧ r.close = target.close := by
  obtain ⟨target, ht⟩ := findLatest_isSome_of_exists hbefore
  obtain ⟨hmem, hle⟩ := findLatest_spec ht
  exact ⟨_, target, get_stock_ok_eq hd ht, ht,
    lt_of_le_of_ne hle (hno target hmem), rfl, rfl⟩

/-- C1 (amended), witness: the amended claim at the counterexample's input. -/
theorem C1_amended_witness :
    get_stock "EC" "2024-01-15" exProvider1 = .ok exResult
    ∧ exEntry.date < 738900
    ∧ exResult.date = 738900
    ∧ exResult.close = exEntry.close := by
  obtain ⟨r, target, hok, ht, hlt, hdate, hclose⟩ :=
    C1_amended_date_is_requested "EC" "2024-01-15" exProvider1 738900
      (by decide) (by decide) (by decide)
  have hr : r = exResult := by
    have h := exStock1_eval
    rw [hok] at h
    injection h
  have htarget : target = exEntry := by
    have h : findLatestOnOrBefore
        (sortSeries (exProvider1 "EC" ((738900 : ℤ) - 40) ((738900 : ℤ) + 1)))
        738900 = some exEntry := by decide
    rw [ht] at h
    injection h
  subst hr
  subst htarget
  exact ⟨hok, hlt, hdate, hclose⟩

/-- C2: `var_rel` returns `none` whenever `past` is `None` or exactly zero,
and on present values with nonzero `past` returns exactly
`(curr − past) / past`; the `var_day` / `var_week` / `var_month` fields of
every successful `/stocks` response are produced by applying `var_rel` to the
target close and the 1/7/30-day lookback closes. -/
theorem C2_var_rel_spec :
    (∀ curr : Option ℚ, var_rel curr none = none)
    ∧ (∀ curr : Option ℚ, var_rel curr (some 0) = none)
    ∧ (∀ c p : ℚ, p ≠ 0 → var_rel (some c) (some p) = some ((c - p) / p))
    ∧ (∀ (symbol date : String) (provider : String → ℤ → ℤ → List Entry)
        (r : StockResponse), get_stock symbol date provider = .ok r →
        ∃ (target_date : ℤ) (target : Entry),
          parseDate date = some target_date
          ∧ findLatestOnOrBefore
              (sortSeries (provider symbol (target_date - 40) (target_date + 1)))
              target_date = some target
          ∧ r.var_day = var_rel (some target.close)
              (get_close_at (sortSeries (provider symbol (target_date - 40) (target_date + 1))) target_date 1)
          ∧ r.var_week = var_rel (some target.close)
              (get_close_at (sortSeries (provider symbol (target_date - 40) (target_date + 1))) target_date 7)
          ∧ r.var_month = var_rel (some target.close)
              (get_close_at (sortSeries (provider symbol (target_date - 40) (target_date + 1))) target_date 30)) := by
  refine ⟨fun curr => by cases curr <;> rfl,
          fun curr => by cases curr <;> simp [var_rel],
          fun c p hp => by simp [var_rel, hp],
          fun symbol date provider r hok => ?_⟩
  cases hpd : parseDate date with
  | none => rw [get_stock_badDate hpd] at hok; cases hok
  | some td =>
    by_cases hraw : provider symbol (td - 40) (td + 1) = []
    · rw [get_stock_emptySeries hpd hraw] at hok; cases hok
    · cases hfl : findLatestOnOrBefore
          (sortSeries (provider symbol (td - 40) (td + 1))) td with
      | none => rw [get_stock_noPrior hpd hraw hfl] at hok; cases hok
      | some target =>
        rw [get_stock_ok_eq hpd hfl] at hok
        injection hok with h
        exact ⟨td, target, rfl, hfl, by rw [← h], by rw [← h], by rw [← h]⟩

/-- C2, witness: `var_rel` at `(15, 13)`, and the lookback decomposition of a
successful concrete `/stocks` request. -/
theorem C2_witness :
    var_rel (some (15 : ℚ)) (some 13) = some ((15 - 13) / 13)
    ∧ ∃ (target_date : ℤ) (target : Entry),
        parseDate "2024-01-15" = some target_date
        ∧ findLatestOnOrBefore
            (sortSeries (exProvider1 "EC" (target_date - 40) (target_date + 1)))
            target_date = some target
        ∧ exResult.var_day = var_rel (some target.close)
            (get_close_at (sortSeries (exProvider1 "EC" (target_date - 40) (target_date + 1))) target_date 1)
        ∧ exResult.var_week = var_rel (some target.close)
            (get_close_at (sortSeries (exProvider1 "EC" (target_date - 40) (target_date + 1))) target_date 7)
        ∧ exResult.var_month = var_rel (some target.close)
            (get_close_at (sortSeries (exProvider1 "EC" (target_date - 40) (target_date + 1))) target_date 30) :=
  ⟨C2_var_rel_spec.2.2.1 15 13 (by norm_num),
   C2_var_rel_spec.2.2.2 "EC" "2024-01-15" exProvider1 exResult exStock1_eval⟩

/-- C5: for every identifier below `2^64`, the derived creation timestamp is
exactly `(identifier >> 22) + 1288834974657` milliseconds since the Unix
epoch (that count is always small enough for Python's `datetime`, so the
`try`/`except` never fires there; on an unrepresentable count the function
yields `none` instead of an error). -/
theorem C5_snowflake_timestamp (tweet_id : ℕ) (h64 : tweet_id < 2 ^ 64) :
    tweet_id_to_datetime tweet_id =
      some ((tweet_id >>> 22) + 1288834974657) := by
  rw [tweet_id_to_datetime]
  have h22 : tweet_id >>> 22 = tweet_id / 2 ^ 22 := Nat.shiftRight_eq_div_pow ..
  have hb : (2 : ℕ) ^ 22 = 4194304 := by norm_num
  have h64' : tweet_id < 18446744073709551616 := by
    calc tweet_id < 2 ^ 64 := h64
    _ = 18446744073709551616 := by norm_num
  rw [if_pos]
  rw [h22, hb]
  omega

/-- C5, witness: the snowflake formula at a concrete 19-digit identifier. -/
theorem C5_witness :
    tweet_id_to_datetime 1234567890123456789 =
      some ((1234567890123456789 >>> 22) + 1288834974657) :=
  C5_snowflake_timestamp 1234567890123456789 (by norm_num)

/-- C3: an organic result that passes the platform filter and has no derived
timestamp is kept, with an empty timestamp field; a kept result's item is
emitted by `/tweets`; and a result that is dropped after the platform filter
was dropped only because a timestamp was derived, the query date parsed, and
the two dates mismatch. -/
theorem C3_no_timestamp_never_filtered (date : String) (r : OrganicResult)
    (hp : platformOk r = true) :
    (derivedTs r = none →
        processResult date r = some (mkTweetItem r none)
        ∧ (mkTweetItem r none).created_at = none)
    ∧ (processResult date r = none →
        ∃ ms target_date, derivedTs r = some ms
          ∧ parseDate date = some target_date
          ∧ msToDateOrdinal ms ≠ target_date)
    ∧ (∀ (keyword : String) (max_results : ℕ) (resp : SerpResponse),
        resp.status_code = 200 → r ∈ resp.organic_results →
        ∀ item : TweetItem, processResult date r = some item →
          ∃ t, get_tweets keyword date max_results resp = .ok t
            ∧ item ∈ t.tweets) := by
  refine ⟨fun hdt => ⟨processResult_keep_of_no_dt hp hdt, rfl⟩,
          processResult_none_characterization hp,
          fun keyword max_results resp h200 hmem item hitem => ?_⟩
  exact ⟨_, get_tweets_ok h200, List.mem_filterMap.mpr ⟨r, hmem, hitem⟩⟩

/-- C3, witness: a platform-matching organic result with no `status` segment
is kept with an empty timestamp and appears in the `/tweets` output. -/
theorem C3_witness :
    processResult "2024-01-15" exOrganicNoStatus =
      some (mkTweetItem exOrganicNoStatus none)
    ∧ (mkTweetItem exOrganicNoStatus none).created_at = none
    ∧ ∃ t, get_tweets "Ecopetrol" "2024-01-15" 20 exSerpOk = .ok t
        ∧ mkTweetItem exOrganicNoStatus none ∈ t.tweets := by
  have h := C3_no_timestamp_never_filtered "2024-01-15" exOrganicNoStatus (by decide)
  have hdt : derivedTs exOrganicNoStatus = none := by decide
  obtain ⟨hkeep, hca⟩ := h.1 hdt
  exact ⟨hkeep, hca, h.2.2 "Ecopetrol" 20 exSerpOk rfl (by decide) _ hkeep⟩

/-- C4: splitting the link on `/`, the segment after the first `status`
segment, truncated at the first `?`, is the identifier when all-digit: the
link `https://x.com/u/status/1234567890123456789?s=20` yields
1234567890123456789, a non-numeric segment yields no identifier, a link with
no `status` segment yields no identifier, and a platform-passing candidate
with no identifier is never date-filtered (kept, empty timestamp). -/
theorem C4_identifier_extraction :
    extractTweetId "https://x.com/u/status/1234567890123456789?s=20" =
      some 1234567890123456789
    ∧ extractTweetId "https://x.com/u/status/abc123" = none
    ∧ (∀ link : String,
        ¬ (splitOnCharL '/' link.toList).contains "status".toList = true →
        extractTweetId link = none)
    ∧ (∀ (date : String) (r : OrganicResult), platformOk r = true →
        extractTweetId (r.link.getD "") = none →
        processResult date r = some (mkTweetItem r none)) := by
  refine ⟨by decide, by decide, fun link h => ?_, fun date r hp hid => ?_⟩
  · simp only [extractTweetId]
    rw [if_neg h]
  · exact processResult_keep_of_no_dt hp (by rw [derivedTs, hid]; rfl)

/-- C4, witness: a status-less link yields no identifier and its candidate is
kept with an empty timestamp. -/
theorem C4_witness :
    extractTweetId "https://x.com/u/about" = none
    ∧ processResult "2024-01-15" exOrganicNoStatus =
        some (mkTweetItem exOrganicNoStatus none) := by
  have h := C4_identifier_extraction
  exact ⟨h.2.2.1 "https://x.com/u/about" (by decide),
         h.2.2.2 "2024-01-15" exOrganicNoStatus (by decide) (by decide)⟩

/-- C6: the malformed date string `"2024-13-40"` does not parse; `/stocks`
then fails with a 400 validation error for every provider (so before any
fetch), while `/tweets` filters nothing by date: every organic result passing
the platform filter is kept, and the emitted list is exactly one item per
platform-passing result. -/
theorem C6_malformed_date_split :
    parseDate "2024-13-40" = none
    ∧ (∀ (symbol : String) (provider : String → ℤ → ℤ → List Entry),
        get_stock symbol "2024-13-40" provider =
          .error ⟨400, "Formato de fecha inválido. Usa YYYY-MM-DD."⟩)
    ∧ (∀ r : OrganicResult, platformOk r = true →
        processResult "2024-13-40" r = some (mkTweetItem r (derivedTs r)))
    ∧ (∀ (keyword : String) (max_results : ℕ) (resp : SerpResponse),
        resp.status_code = 200 →
        ∃ t, get_tweets keyword "2024-13-40" max_results resp = .ok t
          ∧ t.tweets.length
              = (resp.organic_results.filter platformOk).length) := by
  have hpd : parseDate "2024-13-40" = none := by decide
  refine ⟨hpd, fun symbol provider => get_stock_badDate hpd,
          fun r hp => processResult_keep_of_badDate hp hpd,
          fun keyword max_results resp h200 => ⟨_, get_tweets_ok h200, ?_⟩⟩
  refine length_filterMap_of_isSome_iff (fun r => ?_) _
  by_cases hp : platformOk r = true
  · rw [processResult_isSome_of_platformOk_badDate hp hpd]
  · have hp' : platformOk r = false := by simpa using hp
    rw [processResult_platformFail hp', hp']
    rfl

/-- C6, witness: at `"2024-13-40"`, `/stocks` 400s against a concrete
provider, a candidate with a derived timestamp from a mismatched day is still
kept, and the `/tweets` output keeps every platform-passing candidate. -/
theorem C6_witness :
    get_stock "EC" "2024-13-40" exProvider1 =
      .error ⟨400, "Formato de fecha inválido. Usa YYYY-MM-DD."⟩
    ∧ processResult "2024-13-40" exOrganicStatus =
        some (mkTweetItem exOrganicStatus (derivedTs exOrganicStatus))
    ∧ ∃ t, get_tweets "Ecopetrol" "2024-13-40" 20 exSerpOk = .ok t
        ∧ t.tweets.length
            = (exSerpOk.organic_results.filter platformOk).length := by
  have h := C6_malformed_date_split
  exact ⟨h.2.1 "EC" exProvider1,
         h.2.2.1 exOrganicStatus (by decide),
         h.2.2.2 "Ecopetrol" 20 exSerpOk rfl⟩

/-- C7: with a well-formed date, `/news` fails with the 502 upstream error
exactly when the provider's status is not 200; on a 200 with an empty article
list it succeeds with an empty `articles` list. -/
theorem C7_news_upstream_iff (keyword date : String) (maxrecords : ℕ)
    (resp : GdeltResponse) (target_date : ℤ)
    (hd : parseDate date = some target_date) :
    (get_news keyword date maxrecords resp =
        .error ⟨502, "Error consultando GDELT."⟩
      ↔ resp.status_code ≠ 200)
    ∧ (resp.status_code = 200 → resp.articles = [] →
        get_news keyword date maxrecords resp =
          .ok { keyword := keyword, date := date, articles := [] }) := by
  constructor
  · constructor
    · intro herr
      intro h200
      rw [get_news_ok hd h200] at herr
      cases herr
    · exact get_news_upstream hd
  · intro h200 hemp
    rw [get_news_ok hd h200, hemp]
    rfl

/-- C7, witness: a 503 provider response yields the 502 error; a 200 provider
response with no articles yields a 200 with `articles = []`. -/
theorem C7_witness :
    get_news "Ecopetrol" "2024-01-15" 50 exGdelt503 =
      .error ⟨502, "Error consultando GDELT."⟩
    ∧ get_news "Ecopetrol" "2024-01-15" 50 exGdeltEmpty =
        .ok { keyword := "Ecopetrol", date := "2024-01-15", articles := [] } :=
  ⟨(C7_news_upstream_iff "Ecopetrol" "2024-01-15" 50 exGdelt503 738900
      (by decide)).1.mpr (by decide),
   (C7_news_upstream_iff "Ecopetrol" "2024-01-15" 50 exGdeltEmpty 738900
      (by decide)).2 rfl rfl⟩

/-- C8: with a well-formed date, `/stocks` 404s with the no-data error when
the fetched series is empty, 404s with the no-prior-data error when the
non-empty series has no entry on or before the requested date, and succeeds
(raising neither) when the series is non-empty and some entry is on or before
the requested date. -/
theorem C8_not_found_cases (symbol date : String)
    (provider : String → ℤ → ℤ → List Entry) (target_date : ℤ)
    (hd : parseDate date = some target_date) :
    (provider symbol (target_date - 40) (target_date + 1) = [] →
        get_stock symbol date provider =
          .error ⟨404, "No se encontraron datos para ese símbolo/fecha."⟩)
    ∧ ((∀ e ∈ provider symbol (target_date - 40) (target_date + 1),
          ¬ e.date ≤ target_date) →
        provider symbol (target_date - 40) (target_date + 1) ≠ [] →
        get_stock symbol date provider =
          .error ⟨404, "No hay datos previos a esa fecha."⟩)
    ∧ ((∃ e ∈ provider symbol (target_date - 40) (target_date + 1),
          e.date ≤ target_date) →
        ∃ r, get_stock symbol date provider = .ok r) := by
  refine ⟨get_stock_emptySeries hd,
          fun hall hne =>
            get_stock_noPrior hd hne (findLatest_eq_none_of_all hall),
          fun hex => ?_⟩
  obtain ⟨target, ht⟩ := findLatest_isSome_of_exists hex
  exact ⟨_, get_stock_ok_eq hd ht⟩

/-- C8, witness: the three branches at concrete providers — empty series,
series entirely after the requested date, and a series with a prior entry. -/
theorem C8_witness :
    get_stock "EC" "2024-01-15" exProviderEmpty =
      .error ⟨404, "No se encontraron datos para ese símbolo/fecha."⟩
    ∧ get_stock "EC" "2024-01-15" exProviderLate =
        .error ⟨404, "No hay datos previos a esa fecha."⟩
    ∧ ∃ r, get_stock "EC" "2024-01-15" exProvider1 = .ok r :=
  ⟨(C8_not_found_cases "EC" "2024-01-15" exProviderEmpty 738900 (by decide)).1
      rfl,
   (C8_not_found_cases "EC" "2024-01-15" exProviderLate 738900 (by decide)).2.1
      (by decide) (by decide),
   (C8_not_found_cases "EC" "2024-01-15" exProvider1 738900 (by decide)).2.2
      (by decide)⟩

/-- C9: lookbacks are anchored to the requested date, not the resolved
trading day — whenever the resolved target entry's date is strictly before
the requested date and the target close is nonzero, the 1-day lookback
resolves to the target entry itself and `var_day` is exactly 0. -/
theorem C9_var_day_anchored (symbol date : String)
    (provider : String → ℤ → ℤ → List Entry) (target_date : ℤ)
    (target : Entry) (r : StockResponse)
    (hd : parseDate date = some target_date)
    (ht : findLatestOnOrBefore
        (sortSeries (provider symbol (target_date - 40) (target_date + 1)))
        target_date = some target)
    (hlt : target.date < target_date)
    (hc : target.close ≠ 0)
    (hok : get_stock symbol date provider = .ok r) :
    r.var_day = some 0 := by
  rw [get_stock_ok_eq hd ht] at hok
  injection hok with h
  rw [← h]
  have h1 : findLatestOnOrBefore
      (sortSeries (provider symbol (target_date - 40) (target_date + 1)))
      (target_date - 1) = some target :=
    findLatest_anchor ht (by omega) (by omega)
  show var_rel (some target.close) _ = some 0
  rw [get_close_at, h1]
  simp [var_rel, hc]

/-- C9, witness: against a series with entries on 2024-01-11 (close 10) and
2024-01-12 (close 13) and request date 2024-01-15, the response reports
`var_day = 0` even though the two consecutive trading closes differ. -/
theorem C9_witness :
    get_stock "EC" "2024-01-15" exProvider2 = .ok exResult
    ∧ exResult.var_day = some 0
    ∧ exEntryEarly.close ≠ exEntry.close :=
  ⟨exStock2_eval,
   C9_var_day_anchored "EC" "2024-01-15" exProvider2 738900 exEntry exResult
     (by decide) (by decide) (by decide) (by decide) exStock2_eval,
   by decide⟩

/-- C10: every successful `/news` response maps raw articles pointwise with
`mkNewsItem`, whose `snippet` is exactly the raw article's `title` key —
absent when the raw title is absent, independent of the raw `snippet` key —
so an item with a present raw title has `snippet` equal to its `title`. -/
theorem C10_snippet_is_title (keyword date : String) (maxrecords : ℕ)
    (resp : GdeltResponse) (t : NewsResponse)
    (hok : get_news keyword date maxrecords resp = .ok t) :
    t.articles = resp.articles.map mkNewsItem
    ∧ (∀ a : RawArticle, (mkNewsItem a).snippet = a.title)
    ∧ (∀ a : RawArticle, a.title = none → (mkNewsItem a).snippet = none)
    ∧ (∀ (a : RawArticle) (s : String), a.title = some s →
        (mkNewsItem a).title = s
        ∧ (mkNewsItem a).snippet = some ((mkNewsItem a).title)) := by
  refine ⟨?_, fun a => rfl, fun a h => by simp [mkNewsItem, h],
          fun a s h => by simp [mkNewsItem, h]⟩
  cases hpd : parseDate date with
  | none => rw [get_news_badDate hpd] at hok; cases hok
  | some td =>
    by_cases h200 : resp.status_code = 200
    · rw [get_news_ok hpd h200] at hok
      injection hok with h
      rw [← h]
    · rw [get_news_upstream hpd h200] at hok
      cases hok

/-- C10, witness: at a concrete 200 response, the item of an article whose
raw `snippet` differs from its `title` still has `snippet` equal to the raw
title, and a title-less article yields an absent snippet. -/
theorem C10_witness :
    (mkNewsItem exRawArticle).snippet = exRawArticle.title
    ∧ (mkNewsItem exRawArticleNoTitle).snippet = none
    ∧ (mkNewsItem exRawArticle).snippet = some ((mkNewsItem exRawArticle).title)
    ∧ ¬ exRawArticle.snippet = exRawArticle.title := by
  have h := C10_snippet_is_title "Ecopetrol" "2024-01-15" 50 exGdeltOk
    { keyword := "Ecopetrol", date := "2024-01-15"
      articles := exGdeltOk.articles.map mkNewsItem } (by rfl)
  exact ⟨h.2.1 exRawArticle, h.2.2.1 exRawArticleNoTitle rfl,
         (h.2.2.2 exRawArticle "Headline" rfl).2, by decide⟩
